import Mathlib

/-!
Verification development for the NexusTrader multi-exchange trading engine.

This file gives a shallow embedding of the parts of the repository that the
checked properties are about:

* the per-exchange enum translation tables (`tradebot/exchange/binance/constants.py`,
  `nexustrader/exchange/okx/constants.py`);
* the Binance private connector's user-data parsing and order submission /
  cancellation paths (`nexustrader/exchange/binance/connector.py`);
* the strategy-facing TWAP / adaptive-maker constructors (`nexustrader/strategy.py`);
* the Binance execution management system's account-type routing and minimum
  order amount computation (`nexustrader/exchange/binance/ems.py`).

Python `Decimal` and `float` arithmetic is modelled over `ℚ`; fallible code
(dictionary lookups that can raise `KeyError`, paths that raise exceptions)
returns `Option` / `Except`.  Identity metadata that no property touches
(exchange id, canonical symbol string, timestamps) is omitted from the record
embeddings.
-/

namespace NexusTrader

/-! ## Canonical enums (nexustrader/tradebot `constants`) -/

/-- Canonical order status enum. -/
inductive OrderStatus where
  | pending
  | accepted
  | partFilled
  | filled
  | canceling
  | canceled
  | expired
  | failed
  deriving DecidableEq, Repr

/-- Canonical order side. -/
inductive OrderSide where
  | buy
  | sell
  deriving DecidableEq, Repr

/-- Canonical position side. -/
inductive PositionSide where
  | flat
  | long
  | short
  deriving DecidableEq, Repr

/-- Canonical time in force. -/
inductive TimeInForce where
  | gtc
  | ioc
  | fok
  deriving DecidableEq, Repr

/-- Canonical order type (the values the exchange translation tables cover). -/
inductive OrderType where
  | market
  | limit
  deriving DecidableEq, Repr

/-- Canonical kline interval. -/
inductive KlineInterval where
  | second1
  | minute1
  | minute3
  | minute5
  | minute15
  | minute30
  | hour1
  | hour2
  | hour4
  | hour6
  | hour8
  | hour12
  | day1
  | day3
  | week1
  | month1
  deriving DecidableEq, Repr

/-! ## Binance native enums (`tradebot/exchange/binance/constants.py`) -/

/-- Binance native order status. -/
inductive BinanceOrderStatus where
  | new
  | partFilled
  | filled
  | canceled
  | expired
  deriving DecidableEq, Repr

/-- Binance native position side. -/
inductive BinancePositionSide where
  | both
  | long
  | short
  deriving DecidableEq, Repr

/-- Binance native order side. -/
inductive BinanceOrderSide where
  | buy
  | sell
  deriving DecidableEq, Repr

/-- Binance native time in force. -/
inductive BinanceTimeInForce where
  | gtc
  | ioc
  | fok
  | gtx
  | gtd
  | gteGtc
  deriving DecidableEq, Repr

/-- Binance native order type. -/
inductive BinanceOrderType where
  | limit
  | market
  | stop
  | stopLoss
  | stopLossLimit
  | takeProfit
  | takeProfitLimit
  | limitMaker
  | trailingStopMarket
  | takeProfitMarket
  | stopMarket
  deriving DecidableEq, Repr

/-! ## OKX native enums (`nexustrader/exchange/okx/constants.py`) -/

/-- OKX native kline interval. -/
inductive OkxKlineInterval where
  | second1
  | minute1
  | minute3
  | minute5
  | minute15
  | minute30
  | hour1
  | hour4
  | hour6
  | hour12
  | day1
  | day3
  | week1
  | month1
  deriving DecidableEq, Repr

/-- OKX native position side (`NONE` is the empty-string member). -/
inductive OkxPositionSide where
  | long
  | short
  | net
  | noneSide
  deriving DecidableEq, Repr

/-- OKX native order side. -/
inductive OkxOrderSide where
  | buy
  | sell
  deriving DecidableEq, Repr

/-- OKX native order type. -/
inductive OkxOrderType where
  | market
  | limit
  | postOnly
  | fok
  | ioc
  | optimalLimitIoc
  | mmp
  | mmpAndPostOnly
  deriving DecidableEq, Repr

/-- OKX native order status (the `state` field). -/
inductive OkxOrderStatus where
  | canceled
  | live
  | partFilled
  | filled
  | mmpCanceled
  deriving DecidableEq, Repr

/-! ## BinanceEnumParser (`tradebot/exchange/binance/constants.py`, lines 520-598)

Each `parse_*` function embeds a `_binance_*_map` dictionary lookup; each
`to_binance_*` function embeds the corresponding inverted dictionary.  A
missing dictionary key raises `KeyError` in Python, embedded as `none`.
-/

namespace BinanceEnumParser

/-- Embeds `_binance_order_status_map` (total: every native status is a key). -/
def parse_order_status : BinanceOrderStatus → OrderStatus
  | .new => .accepted
  | .partFilled => .partFilled
  | .filled => .filled
  | .canceled => .canceled
  | .expired => .expired

/-- Embeds `_binance_position_side_map` (total). -/
def parse_position_side : BinancePositionSide → PositionSide
  | .long => .long
  | .short => .short
  | .both => .flat

/-- Embeds `_binance_order_side_map` (total). -/
def parse_order_side : BinanceOrderSide → OrderSide
  | .buy => .buy
  | .sell => .sell

/-- Embeds `_binance_order_time_in_force_map`: only `IOC`, `GTC`, `FOK` are
keys; the other native values raise `KeyError`. -/
def parse_time_in_force : BinanceTimeInForce → Option TimeInForce
  | .ioc => some .ioc
  | .gtc => some .gtc
  | .fok => some .fok
  | _ => none

/-- Embeds `_binance_order_type_map`: only `LIMIT` and `MARKET` are keys. -/
def parse_order_type : BinanceOrderType → Option OrderType
  | .limit => some .limit
  | .market => some .market
  | _ => none

/-- Embeds `_order_status_to_binance_map`, the inversion of
`_binance_order_status_map`; canonical values with no native key raise
`KeyError`. -/
def to_binance_order_status : OrderStatus → Option BinanceOrderStatus
  | .accepted => some .new
  | .partFilled => some .partFilled
  | .filled => some .filled
  | .canceled => some .canceled
  | .expired => some .expired
  | _ => none

/-- Embeds `_position_side_to_binance_map` (total on the canonical enum). -/
def to_binance_position_side : PositionSide → BinancePositionSide
  | .long => .long
  | .short => .short
  | .flat => .both

/-- Embeds `_order_side_to_binance_map` (total). -/
def to_binance_order_side : OrderSide → BinanceOrderSide
  | .buy => .buy
  | .sell => .sell

/-- Embeds `_time_in_force_to_binance_map` (total on the canonical enum). -/
def to_binance_time_in_force : TimeInForce → BinanceTimeInForce
  | .ioc => .ioc
  | .gtc => .gtc
  | .fok => .fok

/-- Embeds `_order_type_to_binance_map` (total on the canonical enum). -/
def to_binance_order_type : OrderType → BinanceOrderType
  | .limit => .limit
  | .market => .market

end BinanceEnumParser

/-! ## OkxEnumParser (`nexustrader/exchange/okx/constants.py`, lines 139-277) -/

namespace OkxEnumParser

/-- Embeds `_okx_kline_interval_map` (total: every native interval is a key). -/
def parse_kline_interval : OkxKlineInterval → KlineInterval
  | .second1 => .second1
  | .minute1 => .minute1
  | .minute3 => .minute3
  | .minute5 => .minute5
  | .minute15 => .minute15
  | .minute30 => .minute30
  | .hour1 => .hour1
  | .hour4 => .hour4
  | .hour6 => .hour6
  | .hour12 => .hour12
  | .day1 => .day1
  | .day3 => .day3
  | .week1 => .week1
  | .month1 => .month1

/-- Embeds `_okx_order_status_map`: `MMP_CANCELED` is not a key. -/
def parse_order_status : OkxOrderStatus → Option OrderStatus
  | .live => some .accepted
  | .partFilled => some .partFilled
  | .filled => some .filled
  | .canceled => some .canceled
  | .mmpCanceled => none

/-- Embeds `_okx_position_side_map`; the `NONE` member maps to the Python
value `None` (all four native members are keys, so no `KeyError`). -/
def parse_position_side : OkxPositionSide → Option PositionSide
  | .net => some .flat
  | .long => some .long
  | .short => some .short
  | .noneSide => none

/-- Embeds `_okx_order_side_map` (total). -/
def parse_order_side : OkxOrderSide → OrderSide
  | .buy => .buy
  | .sell => .sell

/-- Embeds `parse_order_type`: a `match` raising `NotImplementedError` on the
unhandled native types. -/
def parse_order_type : OkxOrderType → Option OrderType
  | .market => some .market
  | .limit => some .limit
  | .ioc => some .limit
  | .fok => some .limit
  | .postOnly => some .limit
  | _ => none

/-- Embeds `parse_time_in_force`: a `match` raising `NotImplementedError` on
the unhandled native types. -/
def parse_time_in_force : OkxOrderType → Option TimeInForce
  | .market => some .gtc
  | .limit => some .gtc
  | .postOnly => some .gtc
  | .fok => some .fok
  | .ioc => some .ioc
  | _ => none

/-- Embeds `_order_status_to_okx_map`, the inversion of
`_okx_order_status_map`. -/
def to_okx_order_status : OrderStatus → Option OkxOrderStatus
  | .accepted => some .live
  | .partFilled => some .partFilled
  | .filled => some .filled
  | .canceled => some .canceled
  | _ => none

/-- Embeds `_position_side_to_okx_map` (an explicit three-entry dictionary,
total on the canonical enum). -/
def to_okx_position_side : PositionSide → OkxPositionSide
  | .flat => .net
  | .long => .long
  | .short => .short

/-- Embeds `_order_side_to_okx_map` (total). -/
def to_okx_order_side : OrderSide → OkxOrderSide
  | .buy => .buy
  | .sell => .sell

/-- Embeds `to_okx_order_type`: a market order maps to the native `MARKET`
type, a limit order is encoded through the time in force. -/
def to_okx_order_type (order_type : OrderType) (time_in_force : TimeInForce) :
    OkxOrderType :=
  match order_type with
  | .market => .market
  | .limit =>
    match time_in_force with
    | .gtc => .limit
    | .fok => .fok
    | .ioc => .ioc

/-- Embeds `to_okx_kline_interval`: raises `KlineSupportedError` when the
canonical interval is not a key of the inverted map. -/
def to_okx_kline_interval : KlineInterval → Option OkxKlineInterval
  | .second1 => some .second1
  | .minute1 => some .minute1
  | .minute3 => some .minute3
  | .minute5 => some .minute5
  | .minute15 => some .minute15
  | .minute30 => some .minute30
  | .hour1 => some .hour1
  | .hour4 => some .hour4
  | .hour6 => some .hour6
  | .hour12 => some .hour12
  | .day1 => some .day1
  | .day3 => some .day3
  | .week1 => some .week1
  | .month1 => some .month1
  | _ => none

end OkxEnumParser

/-! ## Canonical Order and the Binance private connector's user-data parsing
(`nexustrader/exchange/binance/connector.py`) -/

/-- Canonical `Order` record.  Fields whose Python counterpart can be `None`
(or that a given construction site leaves unset) are `Option`; money and
quantity fields (`Decimal` / `float` in Python) are `ℚ`.  Identity metadata
(exchange, symbol string, timestamps) is omitted. -/
structure Order where
  status : OrderStatus
  id : Option ℤ := none
  clientOrderId : Option String := none
  amount : Option ℚ := none
  filled : Option ℚ := none
  remaining : Option ℚ := none
  price : Option ℚ := none
  average : Option ℚ := none
  lastFilledPrice : Option ℚ := none
  lastFilled : Option ℚ := none
  cost : Option ℚ := none
  cumCost : Option ℚ := none
  fee : Option ℚ := none
  otype : Option OrderType := none
  side : Option OrderSide := none
  tif : Option TimeInForce := none
  positionSide : Option PositionSide := none
  reduceOnly : Option Bool := none
  triggerPrice : Option ℚ := none
  deriving DecidableEq, Repr

/-- Modelled from the spec: `BinanceOrderType.is_market` (the property lives
in the nexustrader Binance constants module, which is not under `src/`; only
its tradebot enum definition is).  A native type is market-like when it
executes at market price. -/
def BinanceOrderType.is_market : BinanceOrderType → Bool
  | .market | .stopMarket | .takeProfitMarket | .trailingStopMarket => true
  | _ => false

/-- Modelled from the spec: `BinanceOrderType.is_limit` (see
`BinanceOrderType.is_market`).  A native type is limit-like when it rests at
a limit price. -/
def BinanceOrderType.is_limit : BinanceOrderType → Bool
  | .limit | .stop | .stopLoss | .stopLossLimit | .takeProfit
  | .takeProfitLimit | .limitMaker => true
  | _ => false

/-- Modelled from the spec: the nexustrader Binance futures order-type
parse table (`parse_futures_order_type`, not under `src/`); on the values the
claims exercise it agrees with the tradebot `_binance_order_type_map`. -/
def parseFuturesOrderType : BinanceOrderType → Option OrderType
  | .limit => some .limit
  | .market => some .market
  | _ => none

/-- Modelled from the spec: the nexustrader Binance spot order-type parse
table (`parse_spot_order_type`, not under `src/`). -/
def parseSpotOrderType : BinanceOrderType → Option OrderType
  | .limit => some .limit
  | .market => some .market
  | _ => none

/-- The `o` payload of a Binance futures `ORDER_TRADE_UPDATE` event, with the
wire-string quantity fields already read as exact numbers (`Decimal(...)` in
the source). -/
structure BinanceFuturesOrderData where
  o : BinanceOrderType
  X : BinanceOrderStatus
  S : BinanceOrderSide
  f : BinanceTimeInForce
  ps : BinancePositionSide
  i : ℤ
  c : String
  q : ℚ
  p : ℚ
  ap : ℚ
  l : ℚ
  z : ℚ
  L : ℚ
  n : ℚ
  R : Bool
  deriving DecidableEq, Repr

/-- Embeds lines 474-484 of `_parse_order_trade_update`: the `(cost, cum_cost)`
pair.  Market orders use the last-fill quantity `l` (resp. cumulative `z`)
times the average price `ap`; limit orders replace `ap` by the order price `p`
when `ap` is zero (the falsy test `Decimal(event_data.ap) or ...`).  When the
native type is neither market- nor limit-like both variables stay unbound and
order construction raises, so no order is published (`none`). -/
def futuresCost (d : BinanceFuturesOrderData) : Option (ℚ × ℚ) :=
  if d.o.is_market then
    some (d.l * d.ap, d.z * d.ap)
  else if d.o.is_limit then
    let price := if d.ap = 0 then d.p else d.ap
    some (d.l * price, d.z * price)
  else
    none

/-- Embeds `BinancePrivateConnector._parse_order_trade_update` (lines
457-511): the canonical `Order` published on the `binance.order` topic for a
futures order update, or `none` when an enum lookup or the cost computation
raises (in which case the handler publishes nothing). -/
def parse_order_trade_update (d : BinanceFuturesOrderData) : Option Order := do
  let cc ← futuresCost d
  let ot ← parseFuturesOrderType d.o
  let tf ← BinanceEnumParser.parse_time_in_force d.f
  pure
    { status := BinanceEnumParser.parse_order_status d.X
      id := some d.i
      amount := some d.q
      filled := some d.z
      clientOrderId := some d.c
      otype := some ot
      side := some (BinanceEnumParser.parse_order_side d.S)
      tif := some tf
      price := some d.p
      average := some d.ap
      lastFilledPrice := some d.L
      lastFilled := some d.l
      remaining := some (d.q - d.z)
      fee := some d.n
      cumCost := some cc.2
      cost := some cc.1
      reduceOnly := some d.R
      positionSide := some (BinanceEnumParser.parse_position_side d.ps) }

/-- A Binance spot `executionReport` event, with the wire-string quantity
fields already read as exact numbers. -/
structure BinanceSpotOrderData where
  o : BinanceOrderType
  X : BinanceOrderStatus
  S : BinanceOrderSide
  f : BinanceTimeInForce
  i : ℤ
  c : String
  q : ℚ
  p : ℚ
  l : ℚ
  z : ℚ
  L : ℚ
  Z : ℚ
  Y : ℚ
  n : ℚ
  deriving DecidableEq, Repr

/-- Embeds `BinancePrivateConnector._parse_execution_report` (lines 513-545):
the canonical `Order` published for a spot order update.  The average fill
price is `Z / z` (cumulative quote volume over cumulative filled base
quantity) when `z` is nonzero, and `None` otherwise. -/
def parse_execution_report (d : BinanceSpotOrderData) : Option Order := do
  let ot ← parseSpotOrderType d.o
  let tf ← BinanceEnumParser.parse_time_in_force d.f
  pure
    { status := BinanceEnumParser.parse_order_status d.X
      id := some d.i
      amount := some d.q
      filled := some d.z
      clientOrderId := some d.c
      otype := some ot
      side := some (BinanceEnumParser.parse_order_side d.S)
      tif := some tf
      price := some d.p
      average := if d.z ≠ 0 then some (d.Z / d.z) else none
      lastFilledPrice := some d.L
      lastFilled := some d.l
      remaining := some (d.q - d.z)
      fee := some d.n
      cumCost := some d.Z
      cost := some d.Y }

/-! ## Position side recomputation
(`_parse_account_update` lines 419-455, `_init_account_balance` lines 284-326) -/

/-- Embeds the per-position side recomputation of
`BinancePrivateConnector._parse_account_update`: the exchange-reported side
`ps` is parsed (the schema method `parse_to_position_side` realises the same
`BOTH ↦ FLAT` table as `BinanceEnumParser.parse_position_side`), then a zero
signed amount clears the side and a netted (`FLAT`) side is recomputed from
the sign. -/
def accountUpdatePositionSide (ps : BinancePositionSide) (amt : ℚ) :
    Option PositionSide :=
  let side := BinanceEnumParser.parse_position_side ps
  if amt = 0 then
    none
  else if side = .flat then
    if amt > 0 then some .long
    else if amt < 0 then some .short
    else some side
  else
    some side

/-- Embeds the identical per-position side recomputation in
`BinancePrivateConnector._init_account_balance` (the initial REST account
snapshot, lines 310-317). -/
def initBalancePositionSide (ps : BinancePositionSide) (amt : ℚ) :
    Option PositionSide :=
  let side := BinanceEnumParser.parse_position_side ps
  if amt = 0 then
    none
  else if side = .flat then
    if amt > 0 then some .long
    else if amt < 0 then some .short
    else some side
  else
    some side

/-! ## Order submission and cancellation
(`BinancePrivateConnector.create_order` lines 726-811,
`BinancePrivateConnector.cancel_order` lines 848-898) -/

/-- The Python exceptions the submission/cancellation paths can produce.
`unsupportedSymbolError` is the class the spec names (defined in the
`nexustrader.error` module); it is included so theorems can state which
class is actually raised. -/
inductive PyErr where
  | valueError (msg : String)
  | unboundLocalError (name : String)
  | unsupportedSymbolError (msg : String)
  | apiError (msg : String)
  deriving DecidableEq, Repr

/-- Whether an exception is the `UnsupportedSymbolError` the spec names. -/
def PyErr.isUnsupportedSymbol : PyErr → Bool
  | .unsupportedSymbolError _ => true
  | _ => false

/-- Per-symbol limits of a `BinanceMarket` (`market.limits`). -/
structure BinanceLimits where
  amountMin : ℚ
  costMin : ℚ
  deriving DecidableEq, Repr

/-- Static Binance market metadata for one symbol (the fields the embedded
code reads). -/
structure BinanceMarket where
  nativeId : String
  spot : Bool
  margin : Bool
  linear : Bool
  inverse : Bool
  limits : BinanceLimits
  amountPrec : ℕ
  deriving DecidableEq, Repr

/-- The decoded REST acknowledgment of an order placement (the fields
`create_order` reads; optional fields model both `None` and the falsy empty
string the source tests with `if res.price` etc.). -/
structure BinanceOrderResponse where
  orderId : ℤ
  clientOrderId : String
  updateTime : ℤ
  price : Option ℚ
  avgPrice : Option ℚ
  reduceOnly : Bool
  positionSide : Option BinancePositionSide
  deriving DecidableEq, Repr

/-- The decoded REST acknowledgment of an order cancellation (the fields
`cancel_order` reads). -/
structure BinanceCancelResponse where
  orderId : ℤ
  clientOrderId : String
  updateTime : ℤ
  origQty : ℚ
  executedQty : ℚ
  rtype : Option BinanceOrderType
  side : Option BinanceOrderSide
  timeInForce : Option BinanceTimeInForce
  price : Option ℚ
  avgPrice : Option ℚ
  reduceOnly : Bool
  positionSide : Option BinancePositionSide
  deriving DecidableEq, Repr

/-- Outcome of one `create_order` / `cancel_order` call: either a returned
`Order` or a propagated exception, together with whether the REST dispatch
(`_execute_order_request` / `_execute_cancel_order_request`) was reached. -/
structure CallOutcome where
  result : Except PyErr Order
  restCalled : Bool
  deriving Repr

/-- Embeds `BinancePrivateConnector.create_order` (lines 726-811).

Inputs: `market` is the `self._market.get(symbol)` lookup result; `rest` is
the outcome of the awaited `_execute_order_request` (an exception covers both
REST failures and the unsupported-market-kind `ValueError` raised inside it).

Control flow mirrors the source: a missing market raises `ValueError` before
the `try` block (so it propagates and no REST call happens); a limit order
with a falsy price (`None` or zero) raises `ValueError` likewise; only the
REST dispatch and the construction of the PENDING order sit inside the `try`,
whose handler returns a synthetic FAILED order with `filled = 0` and
`remaining = amount`. -/
def create_order (market : Option BinanceMarket) (side : OrderSide)
    (otype : OrderType) (amount : ℚ) (price : Option ℚ)
    (time_in_force : TimeInForce) (position_side : Option PositionSide)
    (rest : Except PyErr BinanceOrderResponse) : CallOutcome :=
  match market with
  | none =>
    { result := .error (.valueError "Symbol formated wrongly, or not supported")
      restCalled := false }
  | some _ =>
    if otype = .limit ∧ (price = none ∨ price = some 0) then
      { result := .error (.valueError "Price is required for order")
        restCalled := false }
    else
      match rest with
      | .ok res =>
        { result := .ok
            { status := .pending
              id := some res.orderId
              amount := some amount
              filled := some 0
              clientOrderId := some res.clientOrderId
              otype := some otype
              side := some side
              tif := some time_in_force
              price := res.price
              average := res.avgPrice
              remaining := some amount
              reduceOnly := if res.reduceOnly then some true else none
              positionSide :=
                res.positionSide.map BinanceEnumParser.parse_position_side }
          restCalled := true }
      | .error _ =>
        { result := .ok
            { status := .failed
              amount := some amount
              otype := some otype
              side := some side
              price := if price = some 0 then none else price
              tif := some time_in_force
              positionSide := position_side
              filled := some 0
              remaining := some amount }
          restCalled := true }

/-- Order built from a successful cancellation acknowledgment (`cancel_order`
lines 865-887).  The enum translations `parse_order_type` /
`parse_time_in_force` are partial dictionary lookups: an unmapped native
value raises `KeyError` inside the `try`, turning the call into the FAILED
branch, hence the `Option` result. -/
def cancelAckOrder (res : BinanceCancelResponse) : Option Order := do
  let ot ← match res.rtype with
    | none => some none
    | some t => (BinanceEnumParser.parse_order_type t).map some
  let tf ← match res.timeInForce with
    | none => some none
    | some t => (BinanceEnumParser.parse_time_in_force t).map some
  pure
    { status := .canceling
      id := some res.orderId
      amount := some res.origQty
      filled := some res.executedQty
      clientOrderId := some res.clientOrderId
      otype := ot
      side := res.side.map BinanceEnumParser.parse_order_side
      tif := tf
      price := res.price
      average := res.avgPrice
      remaining := some (res.origQty - res.executedQty)
      reduceOnly := some res.reduceOnly
      positionSide :=
        res.positionSide.map BinanceEnumParser.parse_position_side }

/-- Embeds `BinancePrivateConnector.cancel_order` (lines 848-898).

The whole body after the rate limiter sits inside one `try`.  A missing
market raises `ValueError` there, but the `except` handler's log line reads
the still-unassigned local `params`, so the call actually escapes with an
`UnboundLocalError` instead of returning an Order.  Once `params` is
assigned, any failure (REST dispatch or acknowledgment translation) resolves
to a synthetic FAILED order carrying the requested order id. -/
def cancel_order (market : Option BinanceMarket) (order_id : ℤ)
    (rest : Except PyErr BinanceCancelResponse) : CallOutcome :=
  match market with
  | none =>
    { result := .error (.unboundLocalError "params"), restCalled := false }
  | some _ =>
    match rest with
    | .ok res =>
      match cancelAckOrder res with
      | some o => { result := .ok o, restCalled := true }
      | none =>
        { result := .ok { status := .failed, id := some order_id }
          restCalled := true }
    | .error _ =>
      { result := .ok { status := .failed, id := some order_id }
        restCalled := true }

/-! ## Strategy-facing algo-order constructors
(`nexustrader/strategy.py`, `create_adp_maker` lines 183-237 and
`create_twap` lines 251-277) -/

/-- The `submit_type` of an `OrderSubmit` command. -/
inductive SubmitType where
  | create
  | cancel
  | stopLoss
  | takeProfit
  | twap
  | adpMaker
  | cancelTwap
  | cancelAdpMaker
  deriving DecidableEq, Repr

/-- The `OrderSubmit` command value enqueued to the EMS (the fields the
embedded constructors populate; the take-profit/stop-loss fraction fields and
the free-form kwargs passthrough are inert payload and omitted). -/
structure OrderSubmit where
  symbol : String
  uuid : String
  submitType : SubmitType
  side : OrderSide
  amount : ℚ
  duration : ℤ
  wait : ℤ
  checkInterval : ℚ
  positionSide : Option PositionSide
  deriving DecidableEq, Repr

/-- The `OrderError` exception (`nexustrader.error`). -/
inductive OrderError where
  | mk (msg : String)
  deriving DecidableEq, Repr

/-- Embeds `Strategy.create_adp_maker`: validates `wait > duration` with
`OrderError` before building the `OrderSubmit`; the second component is the
list of commands enqueued to the EMS (`_submit_order`).  The random
`ALGO-<uuid>` string is passed in. -/
def create_adp_maker (symbol uuid : String) (side : OrderSide) (amount : ℚ)
    (duration wait : ℤ) (check_interval : ℚ)
    (position_side : Option PositionSide) :
    Except OrderError String × List OrderSubmit :=
  if wait > duration then
    (.error (.mk "wait must be less than duration"), [])
  else
    (.ok uuid,
      [{ symbol := symbol
         uuid := uuid
         submitType := .adpMaker
         side := side
         amount := amount
         duration := duration
         wait := wait
         checkInterval := check_interval
         positionSide := position_side }])

/-- Embeds `Strategy.create_twap`: builds and enqueues the `OrderSubmit`
directly, with no validation of `wait` against `duration`. -/
def create_twap (symbol uuid : String) (side : OrderSide) (amount : ℚ)
    (duration wait : ℤ) (check_interval : ℚ)
    (position_side : Option PositionSide) :
    Except OrderError String × List OrderSubmit :=
  (.ok uuid,
    [{ symbol := symbol
       uuid := uuid
       submitType := .twap
       side := side
       amount := amount
       duration := duration
       wait := wait
       checkInterval := check_interval
       positionSide := position_side }])

/-! ## Binance EMS: account-type routing and minimum order amount
(`nexustrader/exchange/binance/ems.py`) -/

/-- The Binance account types (`tradebot/exchange/binance/constants.py`,
`BinanceAccountType`). -/
inductive BinanceAccountType where
  | spot
  | margin
  | isolatedMargin
  | usdMFuture
  | coinMFuture
  | portfolioMargin
  | spotTestnet
  | usdMFutureTestnet
  | coinMFutureTestnet
  deriving DecidableEq, Repr

/-- `BinanceExecutionManagementSystem.BINANCE_SPOT_PRIORITY` (lines 18-23). -/
def BINANCE_SPOT_PRIORITY : List BinanceAccountType :=
  [.isolatedMargin, .margin, .spotTestnet, .spot]

/-- The four `_binance_*_account_type` attributes the EMS resolves at build
time. -/
structure RoutingState where
  spotAt : Option BinanceAccountType
  linearAt : Option BinanceAccountType
  inverseAt : Option BinanceAccountType
  pmAt : Option BinanceAccountType
  deriving DecidableEq, Repr

/-- Embeds `BinanceExecutionManagementSystem._set_account_type` (lines
45-67): `account_types` is the key set of the configured private connectors.
A portfolio-margin connector short-circuits everything (early `return`);
otherwise the spot slot gets the first configured entry of
`BINANCE_SPOT_PRIORITY` and the futures slots prefer the testnet account
type when configured. -/
def set_account_type (account_types : List BinanceAccountType) : RoutingState :=
  if account_types.contains .portfolioMargin then
    { spotAt := none, linearAt := none, inverseAt := none
      pmAt := some .portfolioMargin }
  else
    { pmAt := none
      spotAt := BINANCE_SPOT_PRIORITY.find? (fun a => account_types.contains a)
      linearAt := some
        (if account_types.contains .usdMFutureTestnet then .usdMFutureTestnet
         else .usdMFuture)
      inverseAt := some
        (if account_types.contains .coinMFutureTestnet then .coinMFutureTestnet
         else .coinMFuture) }

/-- The instrument kind of an `InstrumentId` as the routing code
discriminates it (`is_spot` / `is_linear` / `is_inverse`). -/
inductive InstrumentKind where
  | spot
  | linear
  | inverse
  deriving DecidableEq, Repr

/-- Embeds `BinanceExecutionManagementSystem._instrument_id_to_account_type`
(lines 69-79): a configured portfolio-margin account type wins outright,
otherwise the slot matching the instrument kind is used. -/
def instrument_id_to_account_type (st : RoutingState) (k : InstrumentKind) :
    Option BinanceAccountType :=
  match st.pmAt with
  | some pm => some pm
  | none =>
    match k with
    | .spot => st.spotAt
    | .linear => st.linearAt
    | .inverse => st.inverseAt

/-- Build-time resolution followed by per-instrument routing. -/
def routeAccountType (account_types : List BinanceAccountType)
    (k : InstrumentKind) : Option BinanceAccountType :=
  instrument_id_to_account_type (set_account_type account_types) k

/-- Modelled from the spec: the base-class precision helper
`_amount_to_precision(symbol, x, mode="ceil")` (the base EMS module is not
under `src/`): round up to the instrument's amount decimal precision, i.e.
take the ceiling at `prec` decimal places. -/
def ceilToPrecision (prec : ℕ) (x : ℚ) : ℚ :=
  ((Int.ceil (x * (10 : ℚ) ^ prec) : ℤ) : ℚ) / (10 : ℚ) ^ prec

/-- Embeds `BinanceExecutionManagementSystem._get_min_order_amount` (lines
93-100): `mid` is the cached level-1 book's mid price. -/
def get_min_order_amount (market : BinanceMarket) (mid : ℚ) : ℚ :=
  let cost_min := market.limits.costMin * (11 / 10)
  let amount_min := market.limits.amountMin
  let min_order_amount := max (cost_min / mid) amount_min
  ceilToPrecision market.amountPrec min_order_amount

/-- The spec's own wording of the minimum order amount (§4.4/§8): instrument
minimum cost times 1.1, divided by the mid price, lower-bounded by the
instrument minimum amount, then ceil-rounded to the amount precision. -/
def specMinOrderAmount (market : BinanceMarket) (mid : ℚ) : ℚ :=
  ceilToPrecision market.amountPrec
    (max (market.limits.costMin * (11 / 10) / mid) market.limits.amountMin)

/-- The bookkeeping invariant `remaining == amount - filled` on an `Order`
whose three quantity fields are set. -/
def remainingInvariant (o : Order) : Prop :=
  ∃ a f, o.amount = some a ∧ o.filled = some f ∧ o.remaining = some (a - f)

/-! ## Concrete inputs used by witnesses and counterexamples -/

/-- The §8 end-to-end futures event: first fill of a market order with
`l = 1`, `ap = 100`, `z = 1` (order quantity 2). -/
def ev1 : BinanceFuturesOrderData :=
  { o := .market, X := .partFilled, S := .buy, f := .gtc, ps := .both
    i := 1, c := "c1", q := 2, p := 0, ap := 100, l := 1, z := 1, L := 100
    n := 0, R := false }

/-- The §8 end-to-end futures event: second partial fill with `l = 1`,
`ap = 110`, `z = 2`. -/
def ev2 : BinanceFuturesOrderData :=
  { o := .market, X := .filled, S := .buy, f := .gtc, ps := .both
    i := 1, c := "c1", q := 2, p := 0, ap := 110, l := 1, z := 2, L := 120
    n := 0, R := false }

/-- A concrete spot execution report with a nonzero cumulative fill. -/
def evSpot : BinanceSpotOrderData :=
  { o := .limit, X := .partFilled, S := .sell, f := .gtc, i := 7, c := "c2"
    q := 4, p := 25, l := 1, z := 2, L := 26, Z := 51, Y := 26, n := 0 }

/-- A concrete market table entry. -/
def mkt : BinanceMarket :=
  { nativeId := "BTCUSDT", spot := true, margin := false, linear := false
    inverse := false, limits := { amountMin := 1 / 1000, costMin := 10 }
    amountPrec := 1 }

/-- A concrete successful placement acknowledgment. -/
def ack : BinanceOrderResponse :=
  { orderId := 42, clientOrderId := "c3", updateTime := 0, price := some 25
    avgPrice := none, reduceOnly := false, positionSide := none }

/-- C6: for every canonical enum value that is representable on a given
exchange (i.e. the to-native translation table has a key for it), composing
the to-native translation with the parse-back translation is the identity,
for the Binance and OKX enum parsers: order status, order side, position
side, time in force, order type, and (for OKX, the only parser in the source
with kline tables) kline interval. -/
theorem enum_round_trip :
    (∀ v : OrderStatus,
      match BinanceEnumParser.to_binance_order_status v with
      | some n => BinanceEnumParser.parse_order_status n = v
      | none => True) ∧
    (∀ v : PositionSide,
      BinanceEnumParser.parse_position_side
        (BinanceEnumParser.to_binance_position_side v) = v) ∧
    (∀ v : OrderSide,
      BinanceEnumParser.parse_order_side
        (BinanceEnumParser.to_binance_order_side v) = v) ∧
    (∀ v : TimeInForce,
      BinanceEnumParser.parse_time_in_force
        (BinanceEnumParser.to_binance_time_in_force v) = some v) ∧
    (∀ v : OrderType,
      BinanceEnumParser.parse_order_type
        (BinanceEnumParser.to_binance_order_type v) = some v) ∧
    (∀ v : OrderStatus,
      match OkxEnumParser.to_okx_order_status v with
      | some n => OkxEnumParser.parse_order_status n = some v
      | none => True) ∧
    (∀ v : PositionSide,
      OkxEnumParser.parse_position_side
        (OkxEnumParser.to_okx_position_side v) = some v) ∧
    (∀ v : OrderSide,
      OkxEnumParser.parse_order_side (OkxEnumParser.to_okx_order_side v) = v) ∧
    (∀ v : OrderType, ∀ tf : TimeInForce,
      OkxEnumParser.parse_order_type (OkxEnumParser.to_okx_order_type v tf) =
        some v) ∧
    (∀ tf : TimeInForce,
      OkxEnumParser.parse_time_in_force
        (OkxEnumParser.to_okx_order_type .limit tf) = some tf) ∧
    (∀ v : KlineInterval,
      match OkxEnumParser.to_okx_kline_interval v with
      | some n => OkxEnumParser.parse_kline_interval n = v
      | none => True) := by
  refine ⟨?_, ?_, ?_, ?_, ?_, ?_, ?_, ?_, ?_, ?_, ?_⟩
  · intro v; cases v <;> simp [BinanceEnumParser.to_binance_order_status,
      BinanceEnumParser.parse_order_status]
  · intro v; cases v <;> rfl
  · intro v; cases v <;> rfl
  · intro v; cases v <;> rfl
  · intro v; cases v <;> rfl
  · intro v; cases v <;> simp [OkxEnumParser.to_okx_order_status,
      OkxEnumParser.parse_order_status]
  · intro v; cases v <;> rfl
  · intro v; cases v <;> rfl
  · intro v tf; cases v <;> cases tf <;> rfl
  · intro tf; cases tf <;> rfl
  · intro v; cases v <;> simp [OkxEnumParser.to_okx_kline_interval,
      OkxEnumParser.parse_kline_interval]

/-- C1: for every Binance futures `ORDER_TRADE_UPDATE` event of a market
order, the published canonical `Order` has `cost = l * ap` (last-fill
quantity times average price) and `cum_cost = z * ap` (cumulative filled
quantity times average price); for limit orders `ap` is replaced by the
order price `p` whenever `ap` is zero. -/
theorem futures_cost_last_fill :
    (∀ d o, d.o = BinanceOrderType.market →
      parse_order_trade_update d = some o →
      o.cost = some (d.l * d.ap) ∧ o.cumCost = some (d.z * d.ap)) ∧
    (∀ d o, d.o = BinanceOrderType.limit →
      parse_order_trade_update d = some o →
      o.cost = some (d.l * (if d.ap = 0 then d.p else d.ap)) ∧
      o.cumCost = some (d.z * (if d.ap = 0 then d.p else d.ap))) := by
  constructor
  · intro d o hd h
    simp only [parse_order_trade_update, futuresCost, hd,
      BinanceOrderType.is_market, if_true, parseFuturesOrderType,
      Option.bind_eq_bind, Option.some_bind, Option.bind_eq_some,
      Option.pure_def, Option.some.injEq] at h
    obtain ⟨tf, htf, ho⟩ := h
    subst ho
    exact ⟨rfl, rfl⟩
  · intro d o hd h
    simp only [parse_order_trade_update, futuresCost, hd,
      BinanceOrderType.is_market, BinanceOrderType.is_limit,
      Bool.false_eq_true, if_false, if_true, parseFuturesOrderType,
      Option.bind_eq_bind, Option.some_bind, Option.bind_eq_some,
      Option.pure_def, Option.some.injEq] at h
    obtain ⟨tf, htf, ho⟩ := h
    subst ho
    exact ⟨rfl, rfl⟩

/-- Witness for C1: the §8 two-event scenario.  The first fill (`l = 1`,
`ap = 100`, `z = 1`) yields `cost = 100` and `cum_cost = 100`; the second
(`l = 1`, `ap = 110`, `z = 2`) yields `cost = 110` and `cum_cost = 220`. -/
theorem futures_cost_last_fill_w :
    ((parse_order_trade_update ev1).map Order.cost = some (some 100)) ∧
    ((parse_order_trade_update ev1).map Order.cumCost = some (some 100)) ∧
    ((parse_order_trade_update ev2).map Order.cost = some (some 110)) ∧
    ((parse_order_trade_update ev2).map Order.cumCost = some (some 220)) := by
  obtain ⟨o₁, ho₁⟩ : ∃ o, parse_order_trade_update ev1 = some o := ⟨_, rfl⟩
  obtain ⟨o₂, ho₂⟩ : ∃ o, parse_order_trade_update ev2 = some o := ⟨_, rfl⟩
  have h1 := futures_cost_last_fill.1 ev1 o₁ rfl ho₁
  have h2 := futures_cost_last_fill.1 ev2 o₂ rfl ho₂
  rw [ho₁, ho₂]
  simp only [Option.map_some']
  rw [h1.1, h1.2, h2.1, h2.2]
  refine ⟨?_, ?_, ?_, ?_⟩ <;> · show some (some _) = some (some _); norm_num [ev1, ev2]

/-- C9: the published spot (`executionReport`) order's average fill price is
`Z / z` (cumulative quote volume over cumulative filled base quantity) when
`z` is nonzero and `None` when `z` is zero, while the futures
(`ORDER_TRADE_UPDATE`) order's average is taken directly from the event's
`ap` field. -/
theorem spot_average_from_cumulative :
    (∀ d o, parse_execution_report d = some o →
      o.average = if d.z ≠ 0 then some (d.Z / d.z) else none) ∧
    (∀ d o, parse_order_trade_update d = some o → o.average = some d.ap) := by
  constructor
  · intro d o h
    simp only [parse_execution_report, Option.bind_eq_bind,
      Option.bind_eq_some, Option.pure_def, Option.some.injEq] at h
    obtain ⟨ot, hot, tf, htf, ho⟩ := h
    subst ho
    rfl
  · intro d o h
    simp only [parse_order_trade_update, Option.bind_eq_bind,
      Option.bind_eq_some, Option.pure_def, Option.some.injEq] at h
    obtain ⟨cc, hcc, ot, hot, tf, htf, ho⟩ := h
    subst ho
    rfl

/-- Witness for C9: the concrete spot event has `Z = 51`, `z = 2`, so the
average is `51 / 2`; the concrete futures event ev1 has `ap = 100`. -/
theorem spot_average_from_cumulative_w :
    ((parse_execution_report evSpot).map Order.average = some (some (51 / 2))) ∧
    ((parse_order_trade_update ev1).map Order.average = some (some 100)) := by
  obtain ⟨o₁, ho₁⟩ : ∃ o, parse_execution_report evSpot = some o := ⟨_, rfl⟩
  obtain ⟨o₂, ho₂⟩ : ∃ o, parse_order_trade_update ev1 = some o := ⟨_, rfl⟩
  have h1 := spot_average_from_cumulative.1 evSpot o₁ ho₁
  have h2 := spot_average_from_cumulative.2 ev1 o₂ ho₂
  rw [ho₁, ho₂]
  simp only [Option.map_some']
  rw [h1, h2]
  constructor
  · show some (if _ then _ else _) = _; norm_num [evSpot]
  · show some (some _) = some (some _); norm_num [ev1]

/-- C10: every canonical `Order` built from a Binance user-data order update
(futures `ORDER_TRADE_UPDATE` and spot `executionReport`) satisfies
`remaining = amount - filled`, and every `Order` returned by a `create_order`
whose REST dispatch succeeded has `filled = 0` and `remaining = amount` (so
the invariant holds at submission acknowledgment). -/
theorem remaining_amount_minus_filled :
    (∀ d o, parse_order_trade_update d = some o → remainingInvariant o) ∧
    (∀ d o, parse_execution_report d = some o → remainingInvariant o) ∧
    (∀ m side ot amount price tif ps res o,
      (create_order (some m) side ot amount price tif ps (.ok res)).result =
        .ok o →
      o.amount = some amount ∧ o.filled = some 0 ∧
        o.remaining = some amount) := by
  refine ⟨?_, ?_, ?_⟩
  · intro d o h
    simp only [parse_order_trade_update, Option.bind_eq_bind,
      Option.bind_eq_some, Option.pure_def, Option.some.injEq] at h
    obtain ⟨cc, hcc, ot, hot, tf, htf, ho⟩ := h
    subst ho
    exact ⟨d.q, d.z, rfl, rfl, rfl⟩
  · intro d o h
    simp only [parse_execution_report, Option.bind_eq_bind,
      Option.bind_eq_some, Option.pure_def, Option.some.injEq] at h
    obtain ⟨ot, hot, tf, htf, ho⟩ := h
    subst ho
    exact ⟨d.q, d.z, rfl, rfl, rfl⟩
  · intro m side ot amount price tif ps res o h
    simp only [create_order] at h
    split at h
    · exact absurd h (by simp)
    · cases h
      exact ⟨rfl, rfl, rfl⟩

/-- Witness for C10: the invariant on the concrete futures event `ev1`
(`remaining = 2 - 1`), on the concrete spot event `evSpot`, and on a
successful concrete placement. -/
theorem remaining_amount_minus_filled_w :
    (∃ o, parse_order_trade_update ev1 = some o ∧ remainingInvariant o) ∧
    (∃ o, parse_execution_report evSpot = some o ∧ remainingInvariant o) ∧
    (∃ o,
      (create_order (some mkt) .buy .market 1 none .gtc none (.ok ack)).result =
        .ok o ∧ o.filled = some 0 ∧ o.remaining = some 1) := by
  obtain ⟨o₁, ho₁⟩ : ∃ o, parse_order_trade_update ev1 = some o := ⟨_, rfl⟩
  obtain ⟨o₂, ho₂⟩ : ∃ o, parse_execution_report evSpot = some o := ⟨_, rfl⟩
  obtain ⟨o₃, ho₃⟩ :
      ∃ o, (create_order (some mkt) .buy .market 1 none .gtc none
        (.ok ack)).result = .ok o := ⟨_, rfl⟩
  have h3 := remaining_amount_minus_filled.2.2 mkt .buy .market 1 none .gtc
    none ack o₃ ho₃
  exact ⟨⟨o₁, ho₁, remaining_amount_minus_filled.1 ev1 o₁ ho₁⟩,
    ⟨o₂, ho₂, remaining_amount_minus_filled.2.1 evSpot o₂ ho₂⟩,
    ⟨o₃, ho₃, h3.2.1, h3.2.2⟩⟩

/-- C5: whenever Binance reports the netted `BOTH` position side (parsed to
`FLAT`), the side applied to the cache is recomputed from the signed amount:
zero clears the side, positive yields `LONG`, negative yields `SHORT` — both
in the streamed `ACCOUNT_UPDATE` handler and in the initial REST account
snapshot. -/
theorem position_side_from_signed_amount :
    ∀ amt : ℚ,
      (accountUpdatePositionSide .both amt =
        if amt = 0 then none
        else if amt > 0 then some .long else some .short) ∧
      (initBalancePositionSide .both amt =
        if amt = 0 then none
        else if amt > 0 then some .long else some .short) := by
  intro amt
  constructor <;>
  · first
      | unfold accountUpdatePositionSide
      | unfold initBalancePositionSide
    simp only [BinanceEnumParser.parse_position_side]
    by_cases h0 : amt = 0
    · simp [h0]
    · by_cases hp : amt > 0
      · simp [h0, hp]
      · have hn : amt < 0 := lt_of_le_of_ne (not_lt.mp hp) h0
        simp [h0, hp, hn]

/-- Counterexample for C2: a `create_order` call whose symbol is missing from
the market table propagates a `ValueError` raised before the `try` block —
the caller does not receive an `Order`, refuting the claim that no exception
from the submission path propagates. -/
theorem create_order_unknown_symbol_propagates :
    (create_order none .buy .market 1 none .gtc none (.ok ack)).result =
      .error (.valueError "Symbol formated wrongly, or not supported") := rfl

/-- C2 (amended): whenever the REST dispatch or acknowledgment handling
raises, `create_order` (resp. `cancel_order`) catches it and returns a
synthetic FAILED `Order` — for `create_order` with `filled = 0` and
`remaining = amount` — but pre-dispatch validation failures in `create_order`
(unknown symbol, falsy limit price) still propagate. -/
theorem rest_failure_returns_failed_order :
    (∀ m side ot amount price tif ps e,
      ¬(ot = OrderType.limit ∧ (price = none ∨ price = some 0)) →
      ∃ o,
        (create_order (some m) side ot amount price tif ps
          (.error e)).result = .ok o ∧
        o.status = .failed ∧ o.filled = some 0 ∧ o.remaining = some amount) ∧
    (∀ m oid e,
      ∃ o, (cancel_order (some m) oid (.error e)).result = .ok o ∧
        o.status = .failed) := by
  constructor
  · intro m side ot amount price tif ps e hguard
    have h : (create_order (some m) side ot amount price tif ps
        (.error e)).result = .ok
          { status := .failed
            amount := some amount
            otype := some ot
            side := some side
            price := if price = some 0 then none else price
            tif := some tif
            positionSide := ps
            filled := some 0
            remaining := some amount } := by
      simp only [create_order, if_neg hguard]
    exact ⟨_, h, rfl, rfl, rfl⟩
  · intro m oid e
    exact ⟨_, rfl, rfl⟩

/-- Witness for C2 (amended): concrete REST failures resolve to FAILED
orders from both calls. -/
theorem rest_failure_returns_failed_order_w :
    (∃ o,
      (create_order (some mkt) .buy .market 1 none .gtc none
        (.error (.apiError "boom"))).result = .ok o ∧
      o.status = .failed ∧ o.filled = some 0 ∧ o.remaining = some 1) ∧
    (∃ o,
      (cancel_order (some mkt) 42 (.error (.apiError "boom"))).result =
        .ok o ∧ o.status = .failed) :=
  ⟨rest_failure_returns_failed_order.1 mkt .buy .market 1 none .gtc none
      (.apiError "boom") (by simp),
    rest_failure_returns_failed_order.2 mkt 42 (.apiError "boom")⟩

/-- Counterexample for C4: the unknown-symbol failure of `create_order` is a
plain `ValueError`, not the `UnsupportedSymbolError` the claim names (and
`cancel_order` even escapes with an `UnboundLocalError` from its own
exception handler). -/
theorem unknown_symbol_error_class :
    (create_order none .sell .market 2 none .gtc none (.ok ack)).result =
      .error (.valueError "Symbol formated wrongly, or not supported") ∧
    PyErr.isUnsupportedSymbol
      (.valueError "Symbol formated wrongly, or not supported") = false ∧
    (cancel_order none 7 (.error (.apiError "unused"))).result =
      .error (.unboundLocalError "params") ∧
    PyErr.isUnsupportedSymbol (.unboundLocalError "params") = false :=
  ⟨rfl, rfl, rfl, rfl⟩

/-- C4 (amended): a submission or cancellation whose symbol is absent from
the market table never reaches the REST dispatch; `create_order` propagates a
`ValueError` (not `UnsupportedSymbolError`), and `cancel_order` propagates an
`UnboundLocalError` raised by its exception handler's reference to the
unassigned `params` local. -/
theorem unknown_symbol_no_rest_call :
    ∀ (side : OrderSide) (ot : OrderType) (amount : ℚ) (price : Option ℚ)
      (tif : TimeInForce) (ps : Option PositionSide)
      (rest : Except PyErr BinanceOrderResponse) (oid : ℤ)
      (crest : Except PyErr BinanceCancelResponse),
      (create_order none side ot amount price tif ps rest).result =
        .error (.valueError "Symbol formated wrongly, or not supported") ∧
      (create_order none side ot amount price tif ps rest).restCalled =
        false ∧
      (cancel_order none oid crest).result =
        .error (.unboundLocalError "params") ∧
      (cancel_order none oid crest).restCalled = false := by
  intro side ot amount price tif ps rest oid crest
  exact ⟨rfl, rfl, rfl, rfl⟩

/-- Counterexample for C3: `create_twap` with `wait = 60 > duration = 30`
does not raise `OrderError`; it returns the uuid and enqueues the TWAP
`OrderSubmit` to the EMS. -/
theorem create_twap_no_wait_validation :
    (create_twap "BTCUSDT-binance" "ALGO-u" .buy 1 30 60 (1 / 10) none).1 =
      .ok "ALGO-u" ∧
    (create_twap "BTCUSDT-binance" "ALGO-u" .buy 1 30 60
      (1 / 10) none).2.length = 1 ∧
    ((create_twap "BTCUSDT-binance" "ALGO-u" .buy 1 30 60
      (1 / 10) none).2.map OrderSubmit.submitType) = [.twap] :=
  ⟨rfl, rfl, rfl⟩

/-- C3 (amended): only `create_adp_maker` validates `wait > duration`,
raising `OrderError` before any `OrderSubmit` is enqueued to the EMS;
`create_twap` performs no such validation. -/
theorem adp_maker_wait_validation :
    ∀ (symbol uuid : String) (side : OrderSide) (amount : ℚ)
      (duration wait : ℤ) (ci : ℚ) (ps : Option PositionSide),
      wait > duration →
      create_adp_maker symbol uuid side amount duration wait ci ps =
        (.error (.mk "wait must be less than duration"), []) := by
  intro symbol uuid side amount duration wait ci ps h
  simp only [create_adp_maker, if_pos h]

/-- Witness for C3 (amended): the §8 inputs `wait = 60`, `duration = 30`
make `create_adp_maker` fail with `OrderError` and enqueue nothing. -/
theorem adp_maker_wait_validation_w :
    create_adp_maker "BTCUSDT-binance" "ALGO-v" .buy 1 30 60 (1 / 10) none =
      (.error (.mk "wait must be less than duration"), []) :=
  adp_maker_wait_validation "BTCUSDT-binance" "ALGO-v" .buy 1 30 60 (1 / 10)
    none (by norm_num)

/-- C7: the EMS minimum viable order amount equals the instrument minimum
cost times 1.1 divided by the level-1 mid price, lower-bounded by the
instrument minimum amount, then ceil-rounded to the instrument's amount
precision; with minimum cost 10, minimum amount 0.001 and mid price 2, the
pre-rounding minimum is 5.5 and the rounded result is exactly 5.5. -/
theorem min_order_amount_formula :
    (∀ market mid, get_min_order_amount market mid =
      specMinOrderAmount market mid) ∧
    max (mkt.limits.costMin * (11 / 10) / 2) mkt.limits.amountMin = 11 / 2 ∧
    get_min_order_amount mkt 2 = 11 / 2 := by
  refine ⟨fun market mid => rfl, ?_, ?_⟩
  · show max ((10 : ℚ) * (11 / 10) / 2) (1 / 1000) = 11 / 2
    rw [max_eq_left (by norm_num)]
    norm_num
  · show ceilToPrecision 1 (max ((10 : ℚ) * (11 / 10) / 2) (1 / 1000)) = 11 / 2
    rw [max_eq_left (by norm_num)]
    unfold ceilToPrecision
    norm_num

/-- C8: Binance EMS account-type routing.  A configured portfolio-margin
connector is chosen for every instrument kind; otherwise spot-class
instruments go to the first configured account type in the priority order
isolated-margin > margin > spot-testnet > spot, and linear/inverse
instruments to their (testnet-preferred) futures account types. -/
theorem account_type_routing :
    (∀ ats k, BinanceAccountType.portfolioMargin ∈ ats →
      routeAccountType ats k = some .portfolioMargin) ∧
    (∀ ats, BinanceAccountType.portfolioMargin ∉ ats →
      (routeAccountType ats .spot =
        if BinanceAccountType.isolatedMargin ∈ ats then some .isolatedMargin
        else if BinanceAccountType.margin ∈ ats then some .margin
        else if BinanceAccountType.spotTestnet ∈ ats then some .spotTestnet
        else if BinanceAccountType.spot ∈ ats then some .spot
        else none) ∧
      routeAccountType ats .linear = some
        (if BinanceAccountType.usdMFutureTestnet ∈ ats then .usdMFutureTestnet
         else .usdMFuture) ∧
      routeAccountType ats .inverse = some
        (if BinanceAccountType.coinMFutureTestnet ∈ ats then
          .coinMFutureTestnet
         else .coinMFuture)) := by
  constructor
  · intro ats k h
    simp [routeAccountType, set_account_type, h, instrument_id_to_account_type]
  · intro ats h
    refine ⟨?_, ?_, ?_⟩
    · simp only [routeAccountType, set_account_type,
        instrument_id_to_account_type, BINANCE_SPOT_PRIORITY]
      rw [if_neg (by simpa using h)]
      by_cases h1 : BinanceAccountType.isolatedMargin ∈ ats <;>
        by_cases h2 : BinanceAccountType.margin ∈ ats <;>
        by_cases h3 : BinanceAccountType.spotTestnet ∈ ats <;>
        by_cases h4 : BinanceAccountType.spot ∈ ats <;>
        simp [List.find?, h1, h2, h3, h4]
    · simp [routeAccountType, set_account_type, h,
        instrument_id_to_account_type]
    · simp [routeAccountType, set_account_type, h,
        instrument_id_to_account_type]

/-- Witness for C8: with connectors `[spot, margin]` the spot route picks
margin (priority over spot) and the futures routes default to the live
futures account types; with `[portfolioMargin, spot]` every kind routes to
portfolio margin. -/
theorem account_type_routing_w :
    routeAccountType [.spot, .margin] .spot = some .margin ∧
    routeAccountType [.spot, .margin] .linear = some .usdMFuture ∧
    routeAccountType [.portfolioMargin, .spot] .linear =
      some .portfolioMargin := by
  have h1 := (account_type_routing.2 [.spot, .margin] (by decide))
  have h2 := account_type_routing.1 [.portfolioMargin, .spot] .linear
    (by decide)
  refine ⟨?_, ?_, h2⟩
  · rw [h1.1]; decide
  · rw [h1.2.1]; decide

end NexusTrader
